import Mathlib

/-!
# Verification of the ZX Spectrum border renderer (src/zx/screen/border.rs)

Shallow embedding of the border-color rendering component. The pixel buffer
is modelled as a total function from byte index to byte value; the nested
fill loop of fill_to is modelled by structural recursion over the pixel
range; machine integers (usize) are modelled as Nat, with truncated
subtraction matching the places where the source subtracts (each such place
is proved not to underflow, or guarded, below).
-/

set_option autoImplicit false

namespace RustZX

/-- Modelled from the spec: the logical border color values consumed from the
color module (zx/screen/colors.rs is not part of the sources under
verification); the standard eight ZX Spectrum colors. -/
inductive ZXColor
  | Black
  | Blue
  | Red
  | Magenta
  | Green
  | Cyan
  | Yellow
  | White
deriving DecidableEq

/-- Modelled from the spec: brightness selector of the color table; border
rendering always uses the Normal variant. -/
inductive ZXBrightness
  | Normal
  | Bright
deriving DecidableEq

/-- Modelled from the spec: per-machine timing constants returned by
ZXMachine::specs() (zx/machine.rs is not part of the sources under
verification): clock count of the first visible pixel, clock length of one
scanline, and the ULA beam shift offset. -/
structure ZXSpecs where
  clocks_first_pixel : Nat
  clocks_line : Nat
  clocks_ula_beam_shift : Nat

/-- Modelled from the spec: the immutable environment of the renderer — the
machine timing constants, the screen-geometry constants from zx/constants.rs
(not part of the sources under verification), and the color table
(palette.get_rgba), which resolves a color and brightness to the byte at a
given offset of the pixel byte sequence. -/
structure Env where
  specs : ZXSpecs
  BORDER_ROWS : Nat
  BORDER_COLS : Nat
  CLOCKS_PER_COL : Nat
  PIXELS_PER_CLOCK : Nat
  SCREEN_WIDTH : Nat
  SCREEN_HEIGHT : Nat
  BYTES_PER_PIXEL : Nat
  PIXEL_COUNT : Nat
  get_rgba : ZXColor → ZXBrightness → Nat → Nat

/-- BeamInfo: beam position (scanline, horizontal pixel) plus the color
active since that position. -/
structure BeamInfo where
  line : Nat
  pixel : Nat
  color : ZXColor
deriving DecidableEq

/-- BeamInfo::new — beam info at a given position with a given color. -/
def BeamInfo.new (line pixel : Nat) (color : ZXColor) : BeamInfo :=
  { line := line, pixel := pixel, color := color }

/-- BeamInfo::first_pixel — beam info at position (0,0) with a given color. -/
def BeamInfo.first_pixel (color : ZXColor) : BeamInfo :=
  BeamInfo.new 0 0 color

/-- BeamInfo::is_first_pixel — true iff the beam is at (0,0). -/
def BeamInfo.is_first_pixel (b : BeamInfo) : Bool :=
  b.line = 0 && b.pixel = 0

/-- BeamInfo::reset — zero the position, keep the color. -/
def BeamInfo.reset (b : BeamInfo) : BeamInfo :=
  { b with line := 0, pixel := 0 }

/-- ZXBorder: the mutable state of the border device — the rendered pixel
buffer (byte index to byte value), the last beam state, and the two
per-frame flags. The machine and palette fields of the source struct are
the immutable Env above. -/
structure ZXBorder where
  buffer : Nat → Nat
  beam_last : BeamInfo
  border_changed : Bool
  beam_block : Bool

/-- ZXBorder::new — fresh state: zeroed buffer, beam at the first pixel with
color White, border_changed set, beam_block clear. -/
def ZXBorder.new : ZXBorder :=
  { buffer := fun _ => 0
    beam_last := BeamInfo.first_pixel ZXColor.White
    border_changed := true
    beam_block := false }

/-- The origin clock value computed inside next_border_pixel: clock count of
the first visible pixel, minus the border scanlines above the screen
(BORDER_ROWS counts 8-scanline character rows, hence the factor 8) times the
clock length of a scanline, minus the left border columns times
clocks-per-column, plus the ULA beam shift offset. Subtraction is usize
(Nat) subtraction, evaluated left to right as in the source. -/
def clocks_origin (env : Env) : Nat :=
  env.specs.clocks_first_pixel - 8 * env.BORDER_ROWS * env.specs.clocks_line
    - env.BORDER_COLS * env.CLOCKS_PER_COL + env.specs.clocks_ula_beam_shift

/-- ZXBorder::next_border_pixel — map a clock count to the raster position
(line, pixel) of the next border pixel, plus an end-of-frame flag. The two
mutable locals of the source are modelled by the rebinding of lp. -/
def next_border_pixel (env : Env) (clocks : Nat) : Nat × Nat × Bool :=
  if clocks < clocks_origin env then (0, 0, false)
  else
    let c := clocks - clocks_origin env
    let line := c / env.specs.clocks_line
    let pixel := (c % env.specs.clocks_line + 1) * env.PIXELS_PER_CLOCK
    let lp : Nat × Nat :=
      if env.SCREEN_WIDTH ≤ pixel - env.PIXELS_PER_CLOCK then (line + 1, 0)
      else (line, pixel)
    if env.SCREEN_HEIGHT ≤ lp.1 then (0, 0, true) else (lp.1, lp.2, false)

/-- Pointwise update of the buffer function (one byte store). -/
def updFn (buf : Nat → Nat) (i v : Nat) : Nat → Nat :=
  fun j => if j = i then v else buf j

/-- Inner loop of ZXBorder::fill_to: write the first b bytes of the resolved
color sequence at offsets base, base+1, ... -/
def writePixelBytes (color_array : Nat → Nat) (base : Nat) (buf : Nat → Nat) :
    Nat → (Nat → Nat)
  | 0 => buf
  | b + 1 => updFn (writePixelBytes color_array base buf b) (base + b) (color_array b)

/-- Outer loop of ZXBorder::fill_to: write the color byte sequence for the n
pixels with indices start, start+1, ..., start+n-1. -/
def fillPixels (color_array : Nat → Nat) (bpp start : Nat) (buf : Nat → Nat) :
    Nat → (Nat → Nat)
  | 0 => buf
  | n + 1 =>
    writePixelBytes color_array ((start + n) * bpp)
      (fillPixels color_array bpp start buf n) bpp

/-- ZXBorder::fill_to — fill the pixels from the last recorded beam position
(inclusive) up to the target position (exclusive) with the last beam color
resolved at Normal brightness. The Rust range start..stop iterates
stop - start times (zero when stop ≤ start). -/
def fill_to (env : Env) (st : ZXBorder) (line pixel : Nat) : ZXBorder :=
  let last := st.beam_last
  let color_array := env.get_rgba last.color ZXBrightness.Normal
  let start := last.line * env.SCREEN_WIDTH + last.pixel
  let stop := line * env.SCREEN_WIDTH + pixel
  { st with
    buffer := fillPixels color_array env.BYTES_PER_PIXEL start st.buffer (stop - start) }

/-- ZXBorder::new_frame — start a new frame: if no border change was seen,
reset the beam position; if the frame tail is not already painted, fill to
the last pixel of the frame; then reset the beam position and both flags. -/
def new_frame (env : Env) (st : ZXBorder) : ZXBorder :=
  let st1 :=
    if st.border_changed = false then { st with beam_last := st.beam_last.reset }
    else st
  let st2 :=
    if st1.beam_block = false then
      fill_to env st1 (env.SCREEN_HEIGHT - 1) env.SCREEN_WIDTH
    else st1
  { st2 with
    beam_last := st2.beam_last.reset
    border_changed := false
    beam_block := false }

/-- ZXBorder::set_border — record a border color change at a given clock:
mark the frame changed, map the clock to a raster position, and unless the
frame tail is already painted, fill (through the end of frame first, when
the position is past it) with the previous color; finally replace the last
beam state with the new position and color. -/
def set_border (env : Env) (st : ZXBorder) (clocks : Nat) (color : ZXColor) : ZXBorder :=
  let st1 := { st with border_changed := true }
  let res := next_border_pixel env clocks
  let st2 :=
    if st1.beam_block = false then
      let stA :=
        if res.2.2 then
          { (fill_to env st1 (env.SCREEN_HEIGHT - 1) env.SCREEN_WIDTH) with
            beam_block := true }
        else st1
      fill_to env stA res.1 res.2.1
    else st1
  { st2 with beam_last := BeamInfo.new res.1 res.2.1 color }

/-- ZXBorder::texture — read accessor for the rendered buffer. -/
def texture (st : ZXBorder) : Nat → Nat :=
  st.buffer

/-- Modelled from the spec: a concrete color table (RGBA, 4 bytes per pixel,
alpha last); Normal brightness resolves channels to intensity 203, Bright to
255, which makes distinct colors resolve to distinct byte sequences. -/
def specPalette (c : ZXColor) (br : ZXBrightness) (b : Nat) : Nat :=
  let i : Nat := match br with
    | ZXBrightness.Normal => 203
    | ZXBrightness.Bright => 255
  let r : Nat := match c with
    | ZXColor.Red | ZXColor.Magenta | ZXColor.Yellow | ZXColor.White => i
    | _ => 0
  let g : Nat := match c with
    | ZXColor.Green | ZXColor.Cyan | ZXColor.Yellow | ZXColor.White => i
    | _ => 0
  let bl : Nat := match c with
    | ZXColor.Blue | ZXColor.Magenta | ZXColor.Cyan | ZXColor.White => i
    | _ => 0
  match b with
  | 0 => r
  | 1 => g
  | 2 => bl
  | 3 => 255
  | _ => 0

/-- Modelled from the spec: a concrete environment following the spec's
end-to-end scenario (origin clock 100, 224 clocks per scanline, 2 pixels per
clock, a 256 by 192 pixel frame, 4 bytes per pixel), with three border
character rows above the screen and four border columns to the left, and the
concrete color table above. -/
def specEnv : Env :=
  { specs := { clocks_first_pixel := 5492, clocks_line := 224, clocks_ula_beam_shift := 0 }
    BORDER_ROWS := 3
    BORDER_COLS := 4
    CLOCKS_PER_COL := 4
    PIXELS_PER_CLOCK := 2
    SCREEN_WIDTH := 256
    SCREEN_HEIGHT := 192
    BYTES_PER_PIXEL := 4
    PIXEL_COUNT := 49152
    get_rgba := specPalette }

/-- Modelled from the spec: well-formedness of the timing and geometry
constants in use — positive scanline length, pixel rate, frame height and
pixel byte width; the pixel rate divides the frame width; the pixel count is
the frame area; and the origin computation does not underflow. -/
structure EnvWf (env : Env) : Prop where
  clocks_line_pos : 0 < env.specs.clocks_line
  ppc_pos : 0 < env.PIXELS_PER_CLOCK
  ppc_dvd : env.PIXELS_PER_CLOCK ∣ env.SCREEN_WIDTH
  height_pos : 0 < env.SCREEN_HEIGHT
  pixel_count_eq : env.PIXEL_COUNT = env.SCREEN_WIDTH * env.SCREEN_HEIGHT
  bpp_pos : 0 < env.BYTES_PER_PIXEL
  origin_sub_ok : 8 * env.BORDER_ROWS * env.specs.clocks_line
    + env.BORDER_COLS * env.CLOCKS_PER_COL ≤ env.specs.clocks_first_pixel

lemma specEnv_wf : EnvWf specEnv := by
  refine ⟨?_, ?_, ?_, ?_, ?_, ?_, ?_⟩ <;> decide

/-! ### Characterization of the fill loops -/

lemma writePixelBytes_apply (col : Nat → Nat) (base : Nat) (buf : Nat → Nat)
    (b i : Nat) :
    writePixelBytes col base buf b i =
      if base ≤ i ∧ i < base + b then col (i - base) else buf i := by
  induction b with
  | zero =>
    simp only [writePixelBytes]
    rw [if_neg]
    omega
  | succ b ih =>
    simp only [writePixelBytes, updFn]
    by_cases h : i = base + b
    · subst h
      rw [if_pos rfl, if_pos (by omega)]
      congr 1
      omega
    · rw [if_neg h, ih]
      by_cases h2 : base ≤ i ∧ i < base + b
      · rw [if_pos h2, if_pos (by omega)]
      · rw [if_neg h2, if_neg (by omega)]

lemma fillPixels_apply (col : Nat → Nat) (bpp start : Nat) (buf : Nat → Nat)
    (n i : Nat) :
    fillPixels col bpp start buf n i =
      if start * bpp ≤ i ∧ i < (start + n) * bpp then col (i % bpp) else buf i := by
  induction n with
  | zero =>
    simp only [fillPixels, Nat.add_zero]
    rw [if_neg]
    exact fun h => absurd (Nat.lt_of_le_of_lt h.1 h.2) (lt_irrefl _)
  | succ n ih =>
    simp only [fillPixels]
    rw [writePixelBytes_apply, ih]
    have h1 : start * bpp ≤ (start + n) * bpp :=
      Nat.mul_le_mul_right _ (Nat.le_add_right _ _)
    have h2 : (start + (n + 1)) * bpp = (start + n) * bpp + bpp := by ring
    by_cases hA : (start + n) * bpp ≤ i ∧ i < (start + n) * bpp + bpp
    · rw [if_pos hA, if_pos (by rw [h2]; omega)]
      congr 1
      have hlt : i - (start + n) * bpp < bpp := by omega
      have hi : ((i - (start + n) * bpp) + (start + n) * bpp) = i := by omega
      calc i - (start + n) * bpp
          = ((i - (start + n) * bpp) + (start + n) * bpp) % bpp := by
            rw [Nat.add_mul_mod_self_right, Nat.mod_eq_of_lt hlt]
        _ = i % bpp := by rw [hi]
    · rw [if_neg hA]
      by_cases hB : start * bpp ≤ i ∧ i < (start + n) * bpp
      · rw [if_pos hB, if_pos (by rw [h2]; omega)]
      · rw [if_neg hB, if_neg (by rw [h2]; omega)]

lemma fill_to_buffer (env : Env) (st : ZXBorder) (line pixel i : Nat) :
    (fill_to env st line pixel).buffer i =
      if (st.beam_last.line * env.SCREEN_WIDTH + st.beam_last.pixel) * env.BYTES_PER_PIXEL ≤ i
          ∧ i < (line * env.SCREEN_WIDTH + pixel) * env.BYTES_PER_PIXEL then
        env.get_rgba st.beam_last.color ZXBrightness.Normal (i % env.BYTES_PER_PIXEL)
      else st.buffer i := by
  simp only [fill_to]
  rw [fillPixels_apply]
  by_cases h : st.beam_last.line * env.SCREEN_WIDTH + st.beam_last.pixel
      ≤ line * env.SCREEN_WIDTH + pixel
  · rw [Nat.add_sub_cancel' h]
  · have h0 : line * env.SCREEN_WIDTH + pixel
        - (st.beam_last.line * env.SCREEN_WIDTH + st.beam_last.pixel) = 0 := by omega
    rw [h0, Nat.add_zero]
    have hle : (line * env.SCREEN_WIDTH + pixel) * env.BYTES_PER_PIXEL
        ≤ (st.beam_last.line * env.SCREEN_WIDTH + st.beam_last.pixel) * env.BYTES_PER_PIXEL :=
      Nat.mul_le_mul_right _ (by omega)
    by_cases hi : (st.beam_last.line * env.SCREEN_WIDTH + st.beam_last.pixel)
        * env.BYTES_PER_PIXEL ≤ i
    · rw [if_neg (by omega), if_neg (by omega)]
    · rw [if_neg (by omega), if_neg (by omega)]

lemma fill_to_beam_last (env : Env) (st : ZXBorder) (line pixel : Nat) :
    (fill_to env st line pixel).beam_last = st.beam_last := rfl

lemma fill_to_border_changed (env : Env) (st : ZXBorder) (line pixel : Nat) :
    (fill_to env st line pixel).border_changed = st.border_changed := rfl

lemma fill_to_beam_block (env : Env) (st : ZXBorder) (line pixel : Nat) :
    (fill_to env st line pixel).beam_block = st.beam_block := rfl

lemma fill_to_zero_buffer (env : Env) (st : ZXBorder) :
    (fill_to env st 0 0).buffer = st.buffer := by
  simp only [fill_to, Nat.zero_mul, Nat.add_zero, Nat.zero_sub, fillPixels]

/-! ### Facts about the clock-to-raster mapping -/

lemma next_border_pixel_end (env : Env) (clocks : Nat)
    (he : (next_border_pixel env clocks).2.2 = true) :
    next_border_pixel env clocks = (0, 0, true) := by
  simp only [next_border_pixel] at he ⊢
  split_ifs at he ⊢ <;> simp_all

lemma pixel_le_width (env : Env) (hwf : EnvWf env) (m : Nat)
    (h : ¬ env.SCREEN_WIDTH ≤ (m + 1) * env.PIXELS_PER_CLOCK - env.PIXELS_PER_CLOCK) :
    (m + 1) * env.PIXELS_PER_CLOCK ≤ env.SCREEN_WIDTH := by
  obtain ⟨w, hw⟩ := hwf.ppc_dvd
  have hsub : (m + 1) * env.PIXELS_PER_CLOCK - env.PIXELS_PER_CLOCK
      = m * env.PIXELS_PER_CLOCK := by
    rw [Nat.succ_mul, Nat.add_sub_cancel]
  rw [hsub] at h
  push_neg at h
  rw [hw] at h ⊢
  rw [mul_comm m env.PIXELS_PER_CLOCK] at h
  have hm : m < w := Nat.lt_of_mul_lt_mul_left h
  calc (m + 1) * env.PIXELS_PER_CLOCK ≤ w * env.PIXELS_PER_CLOCK :=
        Nat.mul_le_mul_right _ hm
    _ = env.PIXELS_PER_CLOCK * w := mul_comm _ _

lemma next_border_pixel_le (env : Env) (hwf : EnvWf env) (clocks : Nat) :
    (next_border_pixel env clocks).1 * env.SCREEN_WIDTH + (next_border_pixel env clocks).2.1
      ≤ env.SCREEN_HEIGHT * env.SCREEN_WIDTH := by
  simp only [next_border_pixel]
  split_ifs with hc hw hh hh
  · simp
  · simp
  · simp only at hh ⊢
    push_neg at hh
    have h1 : ((clocks - clocks_origin env) / env.specs.clocks_line + 1)
        * env.SCREEN_WIDTH ≤ env.SCREEN_HEIGHT * env.SCREEN_WIDTH :=
      Nat.mul_le_mul_right _ (Nat.le_of_lt hh)
    simpa using h1
  · simp
  · simp only at hh ⊢
    push_neg at hh
    have hpx := pixel_le_width env hwf ((clocks - clocks_origin env) % env.specs.clocks_line) hw
    have h1 : (clocks - clocks_origin env) / env.specs.clocks_line + 1 ≤ env.SCREEN_HEIGHT := hh
    calc (clocks - clocks_origin env) / env.specs.clocks_line * env.SCREEN_WIDTH
          + ((clocks - clocks_origin env) % env.specs.clocks_line + 1) * env.PIXELS_PER_CLOCK
        ≤ (clocks - clocks_origin env) / env.specs.clocks_line * env.SCREEN_WIDTH
          + env.SCREEN_WIDTH := by omega
      _ = ((clocks - clocks_origin env) / env.specs.clocks_line + 1) * env.SCREEN_WIDTH := by
          rw [Nat.succ_mul]
      _ ≤ env.SCREEN_HEIGHT * env.SCREEN_WIDTH := Nat.mul_le_mul_right _ h1

/-! ### Facts about the frame lifecycle and the color-change event -/

lemma new_frame_beam_last (env : Env) (st : ZXBorder) :
    (new_frame env st).beam_last = BeamInfo.new 0 0 st.beam_last.color := by
  simp only [new_frame]
  by_cases hc : st.border_changed = false <;>
    by_cases hb : st.beam_block = false <;>
      simp [hc, hb, fill_to_beam_last, fill_to_beam_block, BeamInfo.reset, BeamInfo.new]

lemma new_frame_border_changed (env : Env) (st : ZXBorder) :
    (new_frame env st).border_changed = false := rfl

lemma new_frame_beam_block (env : Env) (st : ZXBorder) :
    (new_frame env st).beam_block = false := rfl

lemma new_frame_buffer_of_block (env : Env) (st : ZXBorder)
    (hb : st.beam_block = true) :
    (new_frame env st).buffer = st.buffer := by
  simp only [new_frame]
  by_cases hc : st.border_changed = false <;> simp [hc, hb]

lemma new_frame_buffer (env : Env) (st : ZXBorder) (hb : st.beam_block = false) :
    (new_frame env st).buffer =
      (fill_to env
        (if st.border_changed = false then { st with beam_last := st.beam_last.reset }
         else st)
        (env.SCREEN_HEIGHT - 1) env.SCREEN_WIDTH).buffer := by
  simp only [new_frame]
  by_cases hc : st.border_changed = false <;> simp [hc, hb]

lemma set_border_border_changed (env : Env) (st : ZXBorder) (clocks : Nat)
    (color : ZXColor) :
    (set_border env st clocks color).border_changed = true := by
  simp only [set_border]
  by_cases hb : st.beam_block = false <;>
    by_cases he : (next_border_pixel env clocks).2.2 <;>
      simp [hb, he, fill_to_border_changed]

lemma set_border_beam_last (env : Env) (st : ZXBorder) (clocks : Nat)
    (color : ZXColor) :
    (set_border env st clocks color).beam_last =
      BeamInfo.new (next_border_pixel env clocks).1 (next_border_pixel env clocks).2.1
        color := rfl

lemma set_border_buffer_of_block (env : Env) (st : ZXBorder) (clocks : Nat)
    (color : ZXColor) (hb : st.beam_block = true) :
    (set_border env st clocks color).buffer = st.buffer := by
  simp only [set_border]
  simp [hb]

lemma set_border_buffer_no_end (env : Env) (st : ZXBorder) (clocks : Nat)
    (color : ZXColor) (hb : st.beam_block = false)
    (he : (next_border_pixel env clocks).2.2 = false) :
    (set_border env st clocks color).buffer =
      (fill_to env st (next_border_pixel env clocks).1
        (next_border_pixel env clocks).2.1).buffer := by
  simp only [set_border]
  simp [hb, he, fill_to]

lemma set_border_frame_end_buffer (env : Env) (st : ZXBorder) (clocks : Nat)
    (color : ZXColor) (hb : st.beam_block = false)
    (he : (next_border_pixel env clocks).2.2 = true) :
    (set_border env st clocks color).buffer =
      (fill_to env st (env.SCREEN_HEIGHT - 1) env.SCREEN_WIDTH).buffer := by
  have hres := next_border_pixel_end env clocks he
  simp only [set_border, hres]
  simp [hb, fill_to, fillPixels]

lemma set_border_frame_end_block (env : Env) (st : ZXBorder) (clocks : Nat)
    (color : ZXColor) (hb : st.beam_block = false)
    (he : (next_border_pixel env clocks).2.2 = true) :
    (set_border env st clocks color).beam_block = true := by
  simp only [set_border]
  simp [hb, he, fill_to_beam_block]

lemma set_border_beam_block_no_end (env : Env) (st : ZXBorder) (clocks : Nat)
    (color : ZXColor) (hb : st.beam_block = false)
    (he : (next_border_pixel env clocks).2.2 = false) :
    (set_border env st clocks color).beam_block = false := by
  simp only [set_border]
  simp [hb, he, fill_to_beam_block]

/-- Sample concrete state used by witnesses: beam at (3,5) with color Blue,
buffer constantly 7, both flags clear. -/
def sampleSt : ZXBorder :=
  { buffer := fun _ => 7
    beam_last := BeamInfo.new 3 5 ZXColor.Blue
    border_changed := false
    beam_block := false }

/-- Sample concrete state with the frame tail already painted
(beam_block set). -/
def sampleStBlocked : ZXBorder :=
  { sampleSt with beam_block := true }

/-! ### Claim theorems -/

/-- C1: for every clock value strictly below the origin — where the origin
equals the clock count of the first visible pixel, minus the border
scanlines above the screen (eight scanlines per border character row) times
the clock length of one scanline, minus the border columns to the left times
clocks-per-column, plus the beam shift offset — the clock-to-raster mapping
next_border_pixel returns exactly (0, 0, false). -/
theorem next_border_pixel_before_origin (env : Env) (clocks : Nat)
    (h : clocks < env.specs.clocks_first_pixel
      - 8 * env.BORDER_ROWS * env.specs.clocks_line
      - env.BORDER_COLS * env.CLOCKS_PER_COL + env.specs.clocks_ula_beam_shift) :
    next_border_pixel env clocks = (0, 0, false) := by
  unfold next_border_pixel clocks_origin
  rw [if_pos h]

theorem next_border_pixel_before_origin_witness :
    50 < specEnv.specs.clocks_first_pixel
        - 8 * specEnv.BORDER_ROWS * specEnv.specs.clocks_line
        - specEnv.BORDER_COLS * specEnv.CLOCKS_PER_COL
        + specEnv.specs.clocks_ula_beam_shift
      ∧ next_border_pixel specEnv 50 = (0, 0, false) :=
  ⟨by decide, next_border_pixel_before_origin specEnv 50 (by decide)⟩

/-- C2: for every clock value at or above the origin, next_border_pixel
computes relative = clock − origin, line = relative / clocksPerLine,
pixel = ((relative mod clocksPerLine) + 1) * pixelsPerClock, wraps to
pixel = 0 with line incremented by 1 when pixel − pixelsPerClock reaches
or exceeds the frame width, and then returns exactly (0, 0, true) when
line reaches or exceeds the frame height and (line, pixel, false)
otherwise. -/
theorem next_border_pixel_after_origin (env : Env) (clocks : Nat)
    (h : clocks_origin env ≤ clocks) :
    next_border_pixel env clocks =
      (if env.SCREEN_WIDTH ≤
          ((clocks - clocks_origin env) % env.specs.clocks_line + 1)
            * env.PIXELS_PER_CLOCK - env.PIXELS_PER_CLOCK then
        (if env.SCREEN_HEIGHT ≤ (clocks - clocks_origin env) / env.specs.clocks_line + 1
         then ((0 : Nat), (0 : Nat), true)
         else ((clocks - clocks_origin env) / env.specs.clocks_line + 1, 0, false))
       else
        (if env.SCREEN_HEIGHT ≤ (clocks - clocks_origin env) / env.specs.clocks_line
         then ((0 : Nat), (0 : Nat), true)
         else ((clocks - clocks_origin env) / env.specs.clocks_line,
           ((clocks - clocks_origin env) % env.specs.clocks_line + 1)
             * env.PIXELS_PER_CLOCK, false))) := by
  simp only [next_border_pixel]
  rw [if_neg (Nat.not_lt.mpr h)]
  by_cases hw : env.SCREEN_WIDTH ≤
      ((clocks - clocks_origin env) % env.specs.clocks_line + 1)
        * env.PIXELS_PER_CLOCK - env.PIXELS_PER_CLOCK <;>
    simp [hw]

theorem next_border_pixel_after_origin_witness :
    clocks_origin specEnv ≤ 1224 ∧ next_border_pixel specEnv 1224 = (5, 10, false) :=
  ⟨by decide, (next_border_pixel_after_origin specEnv 1224 (by decide)).trans (by decide)⟩

/-- C6: fill_to writes, for every byte index in the range from the linear
byte index of beamLast (inclusive) to the linear byte index of the target
position (exclusive), the byte of beamLast's color resolved at Normal
brightness — never the Bright variant — and leaves every other byte and
beamLast itself unchanged. -/
theorem fill_to_writes (env : Env) (st : ZXBorder) (line pixel i : Nat) :
    (fill_to env st line pixel).beam_last = st.beam_last ∧
    (fill_to env st line pixel).buffer i =
      if (st.beam_last.line * env.SCREEN_WIDTH + st.beam_last.pixel)
            * env.BYTES_PER_PIXEL ≤ i
          ∧ i < (line * env.SCREEN_WIDTH + pixel) * env.BYTES_PER_PIXEL then
        env.get_rgba st.beam_last.color ZXBrightness.Normal (i % env.BYTES_PER_PIXEL)
      else st.buffer i :=
  ⟨fill_to_beam_last env st line pixel, fill_to_buffer env st line pixel i⟩

/-- C7: for every target position not strictly after beamLast in linear
order, fill_to leaves every byte of the pixel buffer unchanged (the fill is
an empty no-op, not a crash). -/
theorem fill_to_noop (env : Env) (st : ZXBorder) (line pixel : Nat)
    (h : line * env.SCREEN_WIDTH + pixel
      ≤ st.beam_last.line * env.SCREEN_WIDTH + st.beam_last.pixel) :
    (fill_to env st line pixel).buffer = st.buffer := by
  funext i
  rw [fill_to_buffer, if_neg]
  intro hcon
  have hmul := Nat.mul_le_mul_right env.BYTES_PER_PIXEL h
  omega

theorem fill_to_noop_witness :
    2 * specEnv.SCREEN_WIDTH + 6
        ≤ sampleSt.beam_last.line * specEnv.SCREEN_WIDTH + sampleSt.beam_last.pixel
      ∧ (fill_to specEnv sampleSt 2 6).buffer = sampleSt.buffer :=
  ⟨by decide, fill_to_noop specEnv sampleSt 2 6 (by decide)⟩

/-- C4: for every clock value and color, set_border sets border_changed to
true and unconditionally replaces beam_last by the mapped line, the mapped
pixel and the new color, even when beam_block is already set; and when
beam_block was already set, no byte of the pixel buffer is modified. -/
theorem set_border_spec (env : Env) (st : ZXBorder) (clocks : Nat) (color : ZXColor) :
    (set_border env st clocks color).border_changed = true ∧
    (set_border env st clocks color).beam_last =
      BeamInfo.new (next_border_pixel env clocks).1 (next_border_pixel env clocks).2.1
        color ∧
    (st.beam_block = true → (set_border env st clocks color).buffer = st.buffer) :=
  ⟨set_border_border_changed env st clocks color,
   set_border_beam_last env st clocks color,
   fun hb => set_border_buffer_of_block env st clocks color hb⟩

theorem set_border_spec_witness :
    sampleStBlocked.beam_block = true ∧
    (set_border specEnv sampleStBlocked 1224 ZXColor.Red).border_changed = true ∧
    (set_border specEnv sampleStBlocked 1224 ZXColor.Red).beam_last =
      BeamInfo.new (next_border_pixel specEnv 1224).1
        (next_border_pixel specEnv 1224).2.1 ZXColor.Red ∧
    (set_border specEnv sampleStBlocked 1224 ZXColor.Red).buffer =
      sampleStBlocked.buffer :=
  ⟨rfl, (set_border_spec specEnv sampleStBlocked 1224 ZXColor.Red).1,
   (set_border_spec specEnv sampleStBlocked 1224 ZXColor.Red).2.1,
   (set_border_spec specEnv sampleStBlocked 1224 ZXColor.Red).2.2 rfl⟩

/-- C5: when beam_block is clear and the clock maps past the end of the
visible frame, set_border fills every remaining byte from beamLast to the
last pixel of the frame (line = height − 1, pixel = width) with the
previous beamLast color resolved at Normal brightness, and sets beam_block,
so that further events in the same frame do not paint past the end again. -/
theorem set_border_frame_end_fills (env : Env) (st : ZXBorder) (clocks : Nat)
    (color : ZXColor) (i : Nat) (hb : st.beam_block = false)
    (he : (next_border_pixel env clocks).2.2 = true) :
    (set_border env st clocks color).beam_block = true ∧
    (set_border env st clocks color).buffer i =
      if (st.beam_last.line * env.SCREEN_WIDTH + st.beam_last.pixel)
            * env.BYTES_PER_PIXEL ≤ i
          ∧ i < ((env.SCREEN_HEIGHT - 1) * env.SCREEN_WIDTH + env.SCREEN_WIDTH)
            * env.BYTES_PER_PIXEL then
        env.get_rgba st.beam_last.color ZXBrightness.Normal (i % env.BYTES_PER_PIXEL)
      else st.buffer i :=
  ⟨set_border_frame_end_block env st clocks color hb he, by
    rw [set_border_frame_end_buffer env st clocks color hb he, fill_to_buffer]⟩

theorem set_border_frame_end_fills_witness :
    sampleSt.beam_block = false ∧
    (next_border_pixel specEnv 43108).2.2 = true ∧
    ((set_border specEnv sampleSt 43108 ZXColor.Red).beam_block = true ∧
     (set_border specEnv sampleSt 43108 ZXColor.Red).buffer 4000 =
      if (sampleSt.beam_last.line * specEnv.SCREEN_WIDTH + sampleSt.beam_last.pixel)
            * specEnv.BYTES_PER_PIXEL ≤ 4000
          ∧ 4000 < ((specEnv.SCREEN_HEIGHT - 1) * specEnv.SCREEN_WIDTH
              + specEnv.SCREEN_WIDTH) * specEnv.BYTES_PER_PIXEL then
        specEnv.get_rgba sampleSt.beam_last.color ZXBrightness.Normal
          (4000 % specEnv.BYTES_PER_PIXEL)
      else sampleSt.buffer 4000) :=
  ⟨rfl, by decide,
   set_border_frame_end_fills specEnv sampleSt 43108 ZXColor.Red 4000 rfl (by decide)⟩

/-- C3: for every renderer state, new_frame first resets beamLast's position
to (0,0) keeping its color when border_changed is false, then — when
beam_block is false — fills the buffer from that beamLast to the very last
pixel of the frame (line = height − 1, pixel = width) with beamLast's
current color, and finally leaves beamLast at (0,0) with its color
preserved and both flags false. -/
theorem new_frame_spec (env : Env) (st : ZXBorder) :
    (new_frame env st).beam_last = BeamInfo.new 0 0 st.beam_last.color ∧
    (new_frame env st).border_changed = false ∧
    (new_frame env st).beam_block = false ∧
    (st.beam_block = false →
      (new_frame env st).buffer =
        (fill_to env
          (if st.border_changed = false then { st with beam_last := st.beam_last.reset }
           else st)
          (env.SCREEN_HEIGHT - 1) env.SCREEN_WIDTH).buffer) :=
  ⟨new_frame_beam_last env st, rfl, rfl, fun hb => new_frame_buffer env st hb⟩

theorem new_frame_spec_witness :
    sampleSt.beam_block = false ∧
    (new_frame specEnv sampleSt).beam_last = BeamInfo.new 0 0 sampleSt.beam_last.color ∧
    (new_frame specEnv sampleSt).border_changed = false ∧
    (new_frame specEnv sampleSt).beam_block = false ∧
    (new_frame specEnv sampleSt).buffer =
      (fill_to specEnv
        (if sampleSt.border_changed = false
         then { sampleSt with beam_last := sampleSt.beam_last.reset }
         else sampleSt)
        (specEnv.SCREEN_HEIGHT - 1) specEnv.SCREEN_WIDTH).buffer :=
  ⟨rfl, (new_frame_spec specEnv sampleSt).1, (new_frame_spec specEnv sampleSt).2.1,
   (new_frame_spec specEnv sampleSt).2.2.1, (new_frame_spec specEnv sampleSt).2.2.2 rfl⟩

/-- C8: for every clock value and color, and for well-formed machine timing
constants, set_border and new_frame complete without failure: the origin
computation agrees with exact integer arithmetic (no underflow), the
subtraction pixel − pixelsPerClock never underflows (pixelsPerClock is a
lower bound of the minuend), and neither operation touches any byte index
at or beyond PIXEL_COUNT * BYTES_PER_PIXEL, so every buffer write stays
strictly inside the buffer. -/
theorem border_ops_safe (env : Env) (hwf : EnvWf env) (st : ZXBorder)
    (clocks : Nat) (color : ZXColor) (i : Nat)
    (hi : env.PIXEL_COUNT * env.BYTES_PER_PIXEL ≤ i) :
    ((clocks_origin env : Int) =
        (env.specs.clocks_first_pixel : Int)
          - (8 * env.BORDER_ROWS * env.specs.clocks_line : Nat)
          - (env.BORDER_COLS * env.CLOCKS_PER_COL : Nat)
          + (env.specs.clocks_ula_beam_shift : Nat)) ∧
    env.PIXELS_PER_CLOCK ≤
      ((clocks - clocks_origin env) % env.specs.clocks_line + 1)
        * env.PIXELS_PER_CLOCK ∧
    (set_border env st clocks color).buffer i = st.buffer i ∧
    (new_frame env st).buffer i = st.buffer i := by
  obtain ⟨h0, hH⟩ : ∃ h0, env.SCREEN_HEIGHT = h0 + 1 :=
    ⟨env.SCREEN_HEIGHT - 1, by have := hwf.height_pos; omega⟩
  have hHW : (env.SCREEN_HEIGHT - 1) * env.SCREEN_WIDTH + env.SCREEN_WIDTH
      = env.SCREEN_HEIGHT * env.SCREEN_WIDTH := by
    rw [hH, Nat.add_sub_cancel, Nat.succ_mul]
  rw [hwf.pixel_count_eq, mul_comm env.SCREEN_WIDTH env.SCREEN_HEIGHT] at hi
  refine ⟨?_, ?_, ?_, ?_⟩
  · have hk := hwf.origin_sub_ok
    simp only [clocks_origin]
    omega
  · have h1 : 1 * env.PIXELS_PER_CLOCK ≤
        ((clocks - clocks_origin env) % env.specs.clocks_line + 1)
          * env.PIXELS_PER_CLOCK :=
      Nat.mul_le_mul_right _ (by omega)
    simpa using h1
  · by_cases hb : st.beam_block = false
    · by_cases he : (next_border_pixel env clocks).2.2 = true
      · rw [set_border_frame_end_buffer env st clocks color hb he, fill_to_buffer,
          if_neg]
        intro hcon
        rw [hHW] at hcon
        omega
      · rw [set_border_buffer_no_end env st clocks color hb
          (Bool.not_eq_true _ ▸ he), fill_to_buffer, if_neg]
        intro hcon
        have hle := next_border_pixel_le env hwf clocks
        have hmul := Nat.mul_le_mul_right env.BYTES_PER_PIXEL hle
        omega
    · rw [set_border_buffer_of_block env st clocks color (by simpa using hb)]
  · by_cases hb : st.beam_block = false
    · rw [new_frame_buffer env st hb, fill_to_buffer, if_neg]
      · by_cases hc : st.border_changed = false <;> simp [hc]
      · intro hcon
        rw [hHW] at hcon
        omega
    · rw [new_frame_buffer_of_block env st (by simpa using hb)]

theorem border_ops_safe_witness :
    EnvWf specEnv ∧ specEnv.PIXEL_COUNT * specEnv.BYTES_PER_PIXEL ≤ 196608 ∧
    (((clocks_origin specEnv : Int) =
        (specEnv.specs.clocks_first_pixel : Int)
          - (8 * specEnv.BORDER_ROWS * specEnv.specs.clocks_line : Nat)
          - (specEnv.BORDER_COLS * specEnv.CLOCKS_PER_COL : Nat)
          + (specEnv.specs.clocks_ula_beam_shift : Nat)) ∧
     specEnv.PIXELS_PER_CLOCK ≤
        ((1224 - clocks_origin specEnv) % specEnv.specs.clocks_line + 1)
          * specEnv.PIXELS_PER_CLOCK ∧
     (set_border specEnv sampleSt 1224 ZXColor.Red).buffer 196608 =
        sampleSt.buffer 196608 ∧
     (new_frame specEnv sampleSt).buffer 196608 = sampleSt.buffer 196608) :=
  ⟨specEnv_wf, by decide,
   border_ops_safe specEnv specEnv_wf sampleSt 1224 ZXColor.Red 196608 (by decide)⟩

lemma new_frame_buffer_apply_unchanged (env : Env) (st : ZXBorder)
    (hc : st.border_changed = false) (hb : st.beam_block = false) (i : Nat) :
    (new_frame env st).buffer i =
      if i < ((env.SCREEN_HEIGHT - 1) * env.SCREEN_WIDTH + env.SCREEN_WIDTH)
          * env.BYTES_PER_PIXEL then
        env.get_rgba st.beam_last.color ZXBrightness.Normal (i % env.BYTES_PER_PIXEL)
      else st.buffer i := by
  rw [new_frame_buffer env st hb, if_pos hc, fill_to_buffer]
  simp [BeamInfo.reset]

/-- C9 counterexample: starting from a fresh renderer, a single set_border
call mapping to mid-frame position (5,10), then two new_frame calls with no
intervening set_border, yields buffers that differ at byte index 2: after
the first call that byte still holds the initial White fill, after the
second the whole buffer holds Red. -/
theorem new_frame_twice_not_identical :
    (new_frame specEnv (new_frame specEnv
        (set_border specEnv ZXBorder.new 1224 ZXColor.Red))).buffer 2
      ≠ (new_frame specEnv
        (set_border specEnv ZXBorder.new 1224 ZXColor.Red)).buffer 2 := by
  have hmap : next_border_pixel specEnv 1224 = (5, 10, false) := by decide
  have hne : (next_border_pixel specEnv 1224).2.2 = false := by rw [hmap]
  have hbc : (set_border specEnv ZXBorder.new 1224 ZXColor.Red).border_changed
      = true := set_border_border_changed specEnv ZXBorder.new 1224 ZXColor.Red
  have hbl : (set_border specEnv ZXBorder.new 1224 ZXColor.Red).beam_block
      = false := set_border_beam_block_no_end specEnv ZXBorder.new 1224 ZXColor.Red rfl hne
  have hbeam : (set_border specEnv ZXBorder.new 1224 ZXColor.Red).beam_last
      = BeamInfo.new 5 10 ZXColor.Red := by
    rw [set_border_beam_last, hmap]
  have h2a : (set_border specEnv ZXBorder.new 1224 ZXColor.Red).buffer 2 = 203 := by
    rw [set_border_buffer_no_end specEnv ZXBorder.new 1224 ZXColor.Red rfl hne,
      hmap, fill_to_buffer]
    decide
  have h2b : (new_frame specEnv
      (set_border specEnv ZXBorder.new 1224 ZXColor.Red)).buffer 2 = 203 := by
    rw [new_frame_buffer specEnv _ hbl, if_neg (by rw [hbc]; simp), fill_to_buffer,
      if_neg (by rw [hbeam]; decide)]
    exact h2a
  have h2c : (new_frame specEnv (new_frame specEnv
      (set_border specEnv ZXBorder.new 1224 ZXColor.Red))).buffer 2 = 0 := by
    rw [new_frame_buffer_apply_unchanged specEnv _ (new_frame_border_changed _ _)
      (new_frame_beam_block _ _) 2, if_pos (by decide), new_frame_beam_last, hbeam]
    decide
  rw [h2b, h2c]
  decide

/-- C9 (amended): calling new_frame twice in a row with no intervening
set_border, starting from a state in which border_changed and beam_block
are both clear (so the first call already performs a full-buffer fill),
yields a pixel buffer after the second call identical, byte for byte, to
the buffer after the first call. -/
theorem new_frame_twice_identical_of_unchanged (env : Env) (st : ZXBorder)
    (hc : st.border_changed = false) (hb : st.beam_block = false) :
    (new_frame env (new_frame env st)).buffer = (new_frame env st).buffer := by
  funext i
  rw [new_frame_buffer_apply_unchanged env (new_frame env st)
      (new_frame_border_changed env st) (new_frame_beam_block env st) i,
    new_frame_beam_last]
  simp only [BeamInfo.new]
  by_cases hC : i < ((env.SCREEN_HEIGHT - 1) * env.SCREEN_WIDTH + env.SCREEN_WIDTH)
      * env.BYTES_PER_PIXEL
  · rw [if_pos hC, new_frame_buffer_apply_unchanged env st hc hb i, if_pos hC]
  · rw [if_neg hC]

theorem new_frame_twice_identical_of_unchanged_witness :
    sampleSt.border_changed = false ∧ sampleSt.beam_block = false ∧
    (new_frame specEnv (new_frame specEnv sampleSt)).buffer
      = (new_frame specEnv sampleSt).buffer :=
  ⟨rfl, rfl, new_frame_twice_identical_of_unchanged specEnv sampleSt rfl rfl⟩

/-- C10: immediately after construction, beam_last is at position (0,0) with
color White, beam_block is false and border_changed is true even though no
color-change event has been accepted yet; the very first new_frame call
takes the changed path and still repaints every byte of the buffer with
White resolved at Normal brightness, because beam_last already sits at
(0,0). -/
theorem init_state_first_frame (env : Env) (hwf : EnvWf env) (i : Nat)
    (hi : i < env.PIXEL_COUNT * env.BYTES_PER_PIXEL) :
    ZXBorder.new.beam_last = BeamInfo.new 0 0 ZXColor.White ∧
    ZXBorder.new.beam_block = false ∧
    ZXBorder.new.border_changed = true ∧
    (new_frame env ZXBorder.new).buffer i =
      env.get_rgba ZXColor.White ZXBrightness.Normal (i % env.BYTES_PER_PIXEL) := by
  refine ⟨rfl, rfl, rfl, ?_⟩
  obtain ⟨h0, hH⟩ : ∃ h0, env.SCREEN_HEIGHT = h0 + 1 :=
    ⟨env.SCREEN_HEIGHT - 1, by have := hwf.height_pos; omega⟩
  have hHW : (env.SCREEN_HEIGHT - 1) * env.SCREEN_WIDTH + env.SCREEN_WIDTH
      = env.SCREEN_HEIGHT * env.SCREEN_WIDTH := by
    rw [hH, Nat.add_sub_cancel, Nat.succ_mul]
  rw [hwf.pixel_count_eq, mul_comm env.SCREEN_WIDTH env.SCREEN_HEIGHT] at hi
  have hcond : (ZXBorder.new.beam_last.line * env.SCREEN_WIDTH
        + ZXBorder.new.beam_last.pixel) * env.BYTES_PER_PIXEL ≤ i
      ∧ i < ((env.SCREEN_HEIGHT - 1) * env.SCREEN_WIDTH + env.SCREEN_WIDTH)
        * env.BYTES_PER_PIXEL := by
    constructor
    · simp [ZXBorder.new, BeamInfo.first_pixel, BeamInfo.new]
    · rw [hHW]
      exact hi
  rw [new_frame_buffer env ZXBorder.new rfl, if_neg (by simp [ZXBorder.new]),
    fill_to_buffer, if_pos hcond]
  rfl

theorem init_state_first_frame_witness :
    EnvWf specEnv ∧ 2 < specEnv.PIXEL_COUNT * specEnv.BYTES_PER_PIXEL ∧
    (ZXBorder.new.beam_last = BeamInfo.new 0 0 ZXColor.White ∧
     ZXBorder.new.beam_block = false ∧
     ZXBorder.new.border_changed = true ∧
     (new_frame specEnv ZXBorder.new).buffer 2 =
      specEnv.get_rgba ZXColor.White ZXBrightness.Normal
        (2 % specEnv.BYTES_PER_PIXEL)) :=
  ⟨specEnv_wf, by decide, init_state_first_frame specEnv specEnv_wf 2 (by decide)⟩

end RustZX
